import Mathlib

set_option maxRecDepth 100000

/-!
Shallow embedding of `src/test-integration.ts` (OAuth 2.0 / OpenID Connect
integration test server): the Keycloak configuration record, the in-memory
session store, session-id resolution, and the four HTTP handlers
(login = Leg A, callback = Leg B, status = Leg C, logout = Leg D).

Conventions of the embedding:
  * JavaScript `string | undefined` values are `Option String`; JS string
    truthiness (`if (s)`, `a || b`) is modelled explicitly: the empty string
    and `undefined`/absent are falsy.
  * The two outbound HTTP calls of the callback handler (token exchange,
    userinfo fetch) are inputs of the handler: an `Except Unit _` value is
    the outcome the environment produced (`.error` = transport error or
    non-2xx status, which axios turns into a thrown exception).
  * Each handler returns the new store plus a list of `Event`s, the
    observable effects in program order: outbound requests, store writes,
    `Set-Cookie` headers and the final redirect. `res.redirect` in Express
    issues a 302, so `Event.redirect loc` stands for a 302 response with
    `Location: loc`.
  * The `Map<string, UserSession>` is an association list with the usual
    get/replace/delete operations; only membership, lookup and equality of
    contents matter to the claims, not entry order.
-/

namespace Oidc

/-- Mirror of `keycloakConfig` in the source: endpoint, client credentials,
redirect URIs and scope, resolved once from the environment. -/
structure KeycloakConfig where
  endpoint : String
  clientId : String
  clientSecret : String
  redirectUri : String
  logoutRedirectUri : String
  scope : String
deriving DecidableEq, Repr

/-- The hard-coded fallback values of `keycloakConfig` (used when the
corresponding environment variables are unset). -/
def keycloakConfigDefault : KeycloakConfig :=
  { endpoint := "https://auth-dev.curriculobe.com.br/realms/bestema-dev"
    clientId := ""
    clientSecret := ""
    redirectUri := "http://localhost:3000/callback"
    logoutRedirectUri := "http://localhost:3000/logout-success"
    scope := "openid profile email" }

/-- The slice of an Express `Request` the handlers read: the raw `Cookie`
header, the `Authorization` header, and the `code` query parameter.
`none` = the header/parameter is absent. -/
structure Request where
  cookieHeader : Option String
  authorizationHeader : Option String
  queryCode : Option String
deriving DecidableEq, Repr

/-- JS truthiness of a `string | undefined` value: `undefined` and the
empty string are falsy. -/
def jsTruthy : Option String → Bool
  | none => false
  | some s => s ≠ ""

/-- JS `a || b` for `a : string | undefined` and a string default `b`. -/
def jsOrElse (a : Option String) (b : String) : String :=
  match a with
  | none => b
  | some s => if s = "" then b else s

/-- JS string interpolation of a possibly-undefined value: template
literals render `undefined` as the text `"undefined"`. -/
def jsShow : Option String → String
  | none => "undefined"
  | some s => s

/-- Mirror of the `UserSession` interface: the three optional opaque
tokens, the optional userinfo claims object, and the `isAuthenticated`
flag.  The untyped claims blob is modelled as a claim-name/claim-value
association list. -/
structure UserSession where
  idToken : Option String
  accessToken : Option String
  refreshToken : Option String
  userInfo : Option (List (String × String))
  isAuthenticated : Bool
deriving DecidableEq, Repr

/-- The in-memory `sessions : Map<string, UserSession>` as an association
list from session id to session. -/
abbrev Store := List (String × UserSession)

/-- `sessions.get(id)`: pure lookup. -/
def storeGet (id : String) (s : Store) : Option UserSession :=
  (s.find? (fun p => p.1 = id)).map (fun p => p.2)

/-- `sessions.set(id, v)`: replaces any existing entry for `id`. -/
def storeSet (id : String) (v : UserSession) (s : Store) : Store :=
  (id, v) :: s.filter (fun p => p.1 ≠ id)

/-- `sessions.delete(id)`: removes the entry for `id`; deleting a missing
id is a no-op. -/
def storeDelete (id : String) (s : Store) : Store :=
  s.filter (fun p => p.1 ≠ id)

/-- `sessions.size`. -/
def storeSize (s : Store) : Nat :=
  s.length

/-- JavaScript `String.prototype.split` with a one-character separator, on
character lists: cuts at every occurrence of `sep`; `"".split(sep)` is
`[""]`, and adjacent separators yield empty segments. -/
def splitOnChar (sep : Char) : List Char → List (List Char)
  | [] => [[]]
  | c :: cs =>
    if c = sep then [] :: splitOnChar sep cs
    else
      match splitOnChar sep cs with
      | [] => [[c]]
      | h :: t => (c :: h) :: t

/-- JS `s.split(sep)` for a one-character separator, on strings. -/
def jsSplit (sep : Char) (s : String) : List String :=
  (splitOnChar sep s.toList).map String.mk

/-- The WhiteSpace/LineTerminator set removed by JS
`String.prototype.trim`. -/
def isJsWhitespace (c : Char) : Bool :=
  c = ' ' || c = '\t' || c = '\n' || c = '\r' ||
  c.toNat = 11 || c.toNat = 12 || c.toNat = 160 || c.toNat = 65279 ||
  c.toNat = 5760 || (8192 ≤ c.toNat && c.toNat ≤ 8202) ||
  c.toNat = 8232 || c.toNat = 8233 || c.toNat = 8239 ||
  c.toNat = 8287 || c.toNat = 12288

/-- JS `String.prototype.trim`: strip whitespace from both ends. -/
def jsTrim (s : String) : String :=
  String.mk (((s.toList.dropWhile isJsWhitespace).reverse.dropWhile isJsWhitespace).reverse)

/-- Character-list core of JS `String.prototype.startsWith`: does the
second list begin with the first? -/
def jsStartsWithCl : List Char → List Char → Bool
  | [], _ => true
  | _ :: _, [] => false
  | p :: ps, c :: cs => p = c && jsStartsWithCl ps cs

/-- JS `String.prototype.startsWith` with a plain string argument. -/
def jsStartsWith (pre s : String) : Bool :=
  jsStartsWithCl pre.toList s.toList

/-- Mirror of `getSessionId(req)`.  Faithful to the source line by line:
if the `Cookie` header is truthy, split it on `;`, trim each part, find the
first part starting with `"sessionId="`; when found, return
`part.split('=')[1]` — the segment of the part between the first and the
second `=` (so a cookie value containing `=` is truncated at that `=`).
Otherwise fall back to `req.headers.authorization || 'default'`. -/
def getSessionId (req : Request) : String :=
  let fallback := jsOrElse req.authorizationHeader "default"
  match req.cookieHeader with
  | none => fallback
  | some cookieHeader =>
    if cookieHeader = "" then fallback
    else
      let cookies := (jsSplit ';' cookieHeader).map jsTrim
      match cookies.find? (fun c => jsStartsWith "sessionId=" c) with
      | some sessionCookie => ((jsSplit '=' sessionCookie).getD 1 "")
      | none => fallback

/-- Uppercase hexadecimal digit for `n < 16`. -/
def hexDigitChar (n : Nat) : Char :=
  if n < 10 then Char.ofNat (48 + n) else Char.ofNat (55 + n)

/-- UTF-8 byte sequence of a Unicode code point, as natural numbers. -/
def utf8Bytes (n : Nat) : List Nat :=
  if n < 128 then [n]
  else if n < 2048 then [192 + n / 64, 128 + n % 64]
  else if n < 65536 then [224 + n / 4096, 128 + (n / 64) % 64, 128 + n % 64]
  else [240 + n / 262144, 128 + (n / 4096) % 64, 128 + (n / 64) % 64, 128 + n % 64]

/-- Characters `encodeURIComponent` leaves unescaped:
`A–Z a–z 0–9 - _ . ! ~ * ' ( )`. -/
def isUriUnescaped (c : Char) : Bool :=
  c.isAlphanum || c = '-' || c = '_' || c = '.' || c = '!' || c = '~' ||
  c = '*' || c = Char.ofNat 39 || c = '(' || c = ')'

/-- Percent-encoding `%XY` (uppercase hex) of one byte. -/
def percentEncodeByte (b : Nat) : String :=
  "%" ++ String.singleton (hexDigitChar (b / 16)) ++ String.singleton (hexDigitChar (b % 16))

/-- JavaScript `encodeURIComponent`: unescaped characters pass through,
every other character is UTF-8 encoded and percent-escaped byte by byte. -/
def encodeURIComponent (s : String) : String :=
  String.join (s.toList.map (fun c =>
    if isUriUnescaped c then String.singleton c
    else String.join ((utf8Bytes c.toNat).map percentEncodeByte)))

/-- Mirror of `tokenResponse.data`: the three JSON fields the callback
handler reads; `none` = the field is absent (or `null`) in the body. -/
structure TokenResponse where
  id_token : Option String
  access_token : Option String
  refresh_token : Option String
deriving DecidableEq, Repr

/-- Observable effects of a handler, in program order: outbound HTTP
requests, session-store writes, response headers and the redirect.
`redirect loc` is Express `res.redirect(loc)`, a 302 with `Location: loc`. -/
inductive Event where
  | tokenRequest (url : String) (code : String)
  | userInfoRequest (url : String) (authHeaderValue : String)
  | storePut (id : String) (s : UserSession)
  | storeDel (id : String)
  | setCookieHeader (value : String)
  | redirect (location : String)
deriving DecidableEq, Repr

/-- The authorization-request URL built by the `/login` handler. -/
def authUrl (cfg : KeycloakConfig) : String :=
  cfg.endpoint ++ "/protocol/openid-connect/auth?" ++
  "client_id=" ++ cfg.clientId ++ "&" ++
  "redirect_uri=" ++ encodeURIComponent cfg.redirectUri ++ "&" ++
  "response_type=code&" ++
  "scope=" ++ encodeURIComponent cfg.scope

/-- Leg A, the `GET /login` handler: redirect to the authorization URL.
No store access at all. -/
def login (cfg : KeycloakConfig) (store : Store) : Store × List Event :=
  (store, [Event.redirect (authUrl cfg)])

/-- Session id used by the callback handler: `getSessionId`, replaced by a
freshly generated id when it equals `'default'`.  `freshId` stands for the
value `generateSessionId()` would return. -/
def callbackSessionId (req : Request) (freshId : String) : String :=
  let sid := getSessionId req
  if sid = "default" then freshId else sid

/-- Leg B, the `GET /callback` handler.  `tokenOutcome` and
`userInfoOutcome` are the outcomes of the two axios calls (`.error` =
thrown: transport failure or non-2xx response).  Mirrors the source: check
`!authCode`; POST to the token endpoint; on success build the session with
the three fields copied verbatim and `sessions.set` it; then try the
userinfo fetch, whose success mutates the stored session object
(`userSession.userInfo = ...` aliases the entry in the map) and whose
failure is swallowed; finally set the session cookie and redirect. -/
def callback (cfg : KeycloakConfig) (req : Request) (freshId : String)
    (tokenOutcome : Except Unit TokenResponse)
    (userInfoOutcome : Except Unit (List (String × String)))
    (store : Store) : Store × List Event :=
  let sessionId := callbackSessionId req freshId
  if ¬ jsTruthy req.queryCode then
    (store, [Event.redirect "/?error=no_auth_code"])
  else
    let authCode := jsShow req.queryCode
    let tokenEndpoint := cfg.endpoint ++ "/protocol/openid-connect/token"
    match tokenOutcome with
    | Except.error _ =>
        (store, [Event.tokenRequest tokenEndpoint authCode,
                 Event.redirect "/?error=auth_failed"])
    | Except.ok tr =>
        let userSession : UserSession :=
          { idToken := tr.id_token
            accessToken := tr.access_token
            refreshToken := tr.refresh_token
            userInfo := none
            isAuthenticated := true }
        let store1 := storeSet sessionId userSession store
        let store2 :=
          match userInfoOutcome with
          | Except.ok ui => storeSet sessionId { userSession with userInfo := some ui } store1
          | Except.error _ => store1
        (store2,
         [Event.tokenRequest tokenEndpoint authCode,
          Event.storePut sessionId userSession,
          Event.userInfoRequest (cfg.endpoint ++ "/protocol/openid-connect/userinfo")
            ("Bearer " ++ jsShow tr.access_token),
          Event.setCookieHeader ("sessionId=" ++ sessionId ++ "; HttpOnly; Path=/; Max-Age=86400"),
          Event.redirect "/?auth=success"])

/-- Lookup of one claim in the untyped userinfo claims object. -/
def claimLookup (ui : List (String × String)) (k : String) : Option String :=
  (ui.find? (fun p => p.1 = k)).map (fun p => p.2)

/-- The JSON payload of `GET /api/status` (the `timestamp` and `logs`
fields, produced by the clock and the log collaborator excluded from the
core, are omitted). -/
structure StatusPayload where
  server : String
  user : String
  userInfo : Option (List (String × String))
  sessions : Nat
  sessionId : String
deriving DecidableEq, Repr

/-- The session an absent entry is treated as:
`sessions.get(sessionId) || { isAuthenticated: false }`. -/
def absentSession : UserSession :=
  { idToken := none, accessToken := none, refreshToken := none
    userInfo := none, isAuthenticated := false }

/-- Leg C, the `GET /api/status` handler: pure read of the store, answered
with `res.json(...)` (HTTP status 200).  Returns the store it leaves
behind, the HTTP status code and the payload. -/
def statusHandler (req : Request) (store : Store) : Store × Nat × StatusPayload :=
  let sessionId := getSessionId req
  let userSession := (storeGet sessionId store).getD absentSession
  let userStatus :=
    if userSession.isAuthenticated then
      match userSession.userInfo with
      | some ui =>
          let username :=
            jsOrElse (claimLookup ui "preferred_username")
              (jsOrElse (claimLookup ui "email") "User")
          "🟢 Authenticated (" ++ username ++ ")"
      | none => "🟢 Authenticated"
    else "❌ Not Authenticated"
  let userInfoOut :=
    if userSession.isAuthenticated then userSession.userInfo else none
  (store, 200,
   { server := "🟢 Server Online"
     user := userStatus
     userInfo := userInfoOut
     sessions := storeSize store
     sessionId := sessionId })

/-- The part of the logout-request URL built unconditionally by the
`/logout` handler: endpoint, `client_id` and the encoded
`post_logout_redirect_uri`. -/
def logoutUrlBase (cfg : KeycloakConfig) : String :=
  cfg.endpoint ++ "/protocol/openid-connect/logout?" ++
  "client_id=" ++ cfg.clientId ++ "&" ++
  "post_logout_redirect_uri=" ++ encodeURIComponent cfg.logoutRedirectUri

/-- The logout-request URL built by the `/logout` handler for an
authenticated session: `id_token_hint` is appended only when
`userSession.idToken` is truthy (present and nonempty). -/
def logoutUrl (cfg : KeycloakConfig) (userSession : UserSession) : String :=
  logoutUrlBase cfg ++
  (if jsTruthy userSession.idToken then "&id_token_hint=" ++ jsShow userSession.idToken else "")

/-- Leg D, the `GET /logout` handler.  Mirrors the source: look up the
session; if absent or not authenticated, redirect straight to
`/logout-success` (note: no `Set-Cookie` header on this path); otherwise
build the logout URL, delete the entry, clear the cookie and redirect. -/
def logout (cfg : KeycloakConfig) (req : Request) (store : Store) : Store × List Event :=
  let sessionId := getSessionId req
  match storeGet sessionId store with
  | none => (store, [Event.redirect "/logout-success"])
  | some userSession =>
    if ¬ userSession.isAuthenticated then
      (store, [Event.redirect "/logout-success"])
    else
      (storeDelete sessionId store,
       [Event.storeDel sessionId,
        Event.setCookieHeader "sessionId=; HttpOnly; Path=/; Max-Age=0",
        Event.redirect (logoutUrl cfg userSession)])

/-- One inbound request to any of the four flow endpoints, together with
the environment inputs (fresh id, outcomes of the outbound calls) the
callback handler consumes. -/
inductive Op where
  | loginOp
  | callbackOp (req : Request) (freshId : String)
      (tokenOutcome : Except Unit TokenResponse)
      (userInfoOutcome : Except Unit (List (String × String)))
  | statusOp (req : Request)
  | logoutOp (req : Request)

/-- The session store left behind by handling one request. -/
def applyOp (cfg : KeycloakConfig) (op : Op) (store : Store) : Store :=
  match op with
  | Op.loginOp => (login cfg store).1
  | Op.callbackOp req freshId tok ui => (callback cfg req freshId tok ui store).1
  | Op.statusOp req => (statusHandler req store).1
  | Op.logoutOp req => (logout cfg req store).1

/-- Well-formedness of a stored session: authenticated, with id token and
access token present. -/
def SessionWF (s : UserSession) : Prop :=
  s.isAuthenticated = true ∧ s.idToken.isSome = true ∧ s.accessToken.isSome = true

/-- The session-store invariant of the spec: every entry is a well-formed
authenticated session (absence is the only unauthenticated state). -/
def StoreInv (store : Store) : Prop :=
  ∀ p ∈ store, SessionWF p.2

/-- The remote-dependency contract assumed of the identity provider: a
successful (2xx) token response carries `id_token` and `access_token`. -/
def OpTokenWF : Op → Prop
  | Op.callbackOp _ _ (Except.ok tr) _ =>
      tr.id_token.isSome = true ∧ tr.access_token.isSome = true
  | _ => True

/-- Concrete logout request (cookie `sessionId=S`) used to instantiate the
logout theorems. -/
def logoutReqW : Request := Request.mk (some "sessionId=S") none none

/-- Concrete authenticated session with a nonempty id token. -/
def logoutSessW : UserSession := UserSession.mk (some "IT") (some "AT") none none true

/-- Concrete one-entry store holding `logoutSessW` under id `"S"`. -/
def logoutStoreW : Store := [("S", logoutSessW)]

/-! ## Shared lemmas about the store primitives -/

theorem toList_append (a b : String) : (a ++ b).toList = a.toList ++ b.toList :=
  String.data_append a b

theorem hintOccursInAppend (a c : String) :
    "&id_token_hint=".toList <:+: (a ++ ("&id_token_hint=" ++ c)).toList :=
  ⟨a.toList, c.toList, by simp [toList_append]⟩

theorem storeGet_storeSet_self (id : String) (v : UserSession) (s : Store) :
    storeGet id (storeSet id v s) = some v := by
  simp [storeGet, storeSet]

theorem storeGet_storeDelete_self (id : String) (s : Store) :
    storeGet id (storeDelete id s) = none := by
  have hfind : List.find? (fun p => p.1 = id) (storeDelete id s) = none := by
    rw [List.find?_eq_none]
    intro p hp
    simp only [storeDelete, List.mem_filter, decide_eq_true_eq] at hp
    simpa using hp.2
  simp [storeGet, hfind]

theorem StoreInv_storeSet (id : String) (v : UserSession) (s : Store)
    (hs : StoreInv s) (hv : SessionWF v) : StoreInv (storeSet id v s) := by
  intro p hp
  rcases List.mem_cons.mp hp with h | h
  · rw [h]; exact hv
  · exact hs p (List.mem_of_mem_filter h)

theorem StoreInv_storeDelete (id : String) (s : Store)
    (hs : StoreInv s) : StoreInv (storeDelete id s) :=
  fun p hp => hs p (List.mem_of_mem_filter hp)

/-! ## Claim theorems -/

/-- C3: a callback (Leg B) request with no `code` query parameter leaves
the session store exactly unchanged and answers with a single 302 redirect
to `/?error=no_auth_code` — no outbound call, no store write, no cookie. -/
theorem callback_no_code (cfg : KeycloakConfig) (req : Request) (freshId : String)
    (tok : Except Unit TokenResponse) (ui : Except Unit (List (String × String)))
    (store : Store) (h : req.queryCode = none) :
    callback cfg req freshId tok ui store =
      (store, [Event.redirect "/?error=no_auth_code"]) := by
  simp [callback, jsTruthy, h]

/-- Witness for C3 at a concrete request with no code parameter. -/
theorem callback_no_code_witness :
    (Request.mk none none none).queryCode = none ∧
    callback keycloakConfigDefault (Request.mk none none none) "fresh"
        (Except.error ()) (Except.error ()) [] =
      ([], [Event.redirect "/?error=no_auth_code"]) :=
  ⟨rfl, callback_no_code _ _ _ _ _ _ rfl⟩

/-- C4: a callback (Leg B) request whose token-endpoint exchange fails
(axios throws on transport error or non-2xx) leaves the session store
exactly unchanged and answers with a 302 redirect to `/?error=auth_failed`;
the only other observable effect is the token request itself. -/
theorem callback_token_failure (cfg : KeycloakConfig) (req : Request)
    (freshId c : String) (ui : Except Unit (List (String × String)))
    (store : Store) (hc : req.queryCode = some c) (hne : c ≠ "") :
    callback cfg req freshId (Except.error ()) ui store =
      (store,
       [Event.tokenRequest (cfg.endpoint ++ "/protocol/openid-connect/token") c,
        Event.redirect "/?error=auth_failed"]) := by
  simp [callback, jsTruthy, jsShow, hc, hne]

/-- Witness for C4: spec scenario 3, token endpoint answers HTTP 400. -/
theorem callback_token_failure_witness :
    (Request.mk none none (some "abc")).queryCode = some "abc" ∧ "abc" ≠ "" ∧
    callback keycloakConfigDefault (Request.mk none none (some "abc")) "fresh"
        (Except.error ()) (Except.error ()) [] =
      ([],
       [Event.tokenRequest
          "https://auth-dev.curriculobe.com.br/realms/bestema-dev/protocol/openid-connect/token"
          "abc",
        Event.redirect "/?error=auth_failed"]) :=
  ⟨rfl, by decide, callback_token_failure _ _ _ _ _ _ rfl (by decide)⟩

/-- C10: the status (Leg C) handler is a pure read: it answers 200 and the
store after one — and hence after two consecutive — status requests equals
the store before. -/
theorem status_pure_read (req₁ req₂ : Request) (store : Store) :
    (statusHandler req₁ store).1 = store ∧
    (statusHandler req₁ store).2.1 = 200 ∧
    (statusHandler req₂ (statusHandler req₁ store).1).1 = store :=
  ⟨rfl, rfl, rfl⟩

/-- C8: a logout (Leg D) request whose resolved session id has no stored
entry (or an entry with `isAuthenticated = false`) leaves the store
unchanged and answers with a single redirect to `/logout-success` — in
particular no outbound request event and no `Set-Cookie` header. -/
theorem logout_without_session (cfg : KeycloakConfig) (req : Request) (store : Store)
    (h : ((storeGet (getSessionId req) store).map (fun s => s.isAuthenticated)).getD false
          = false) :
    logout cfg req store = (store, [Event.redirect "/logout-success"]) := by
  unfold logout
  cases hget : storeGet (getSessionId req) store with
  | none => simp [hget]
  | some sess =>
      rw [hget] at h
      simp at h
      simp [hget, h]

/-- Witness for C8 at a concrete request resolving to `"default"` against
the empty store. -/
theorem logout_without_session_witness :
    ((storeGet (getSessionId (Request.mk none none none)) []).map
        (fun s => s.isAuthenticated)).getD false = false ∧
    logout keycloakConfigDefault (Request.mk none none none) [] =
      ([], [Event.redirect "/logout-success"]) :=
  ⟨rfl, logout_without_session _ _ _ rfl⟩

/-- C1: on a callback (Leg B) request carrying an authorization code whose
token exchange succeeds, the store holds — under the resolved session id —
a session with `isAuthenticated = true`, the three tokens copied verbatim
from the response body, and the userinfo claims attached exactly when the
userinfo fetch succeeded; the event trace shows the `sessions.set`
(position 1) strictly before the userinfo request (position 2), then the
`sessionId` cookie header and the 302 redirect to `/?auth=success`. -/
theorem callback_success_stores_session (cfg : KeycloakConfig) (req : Request)
    (freshId c : String) (tr : TokenResponse)
    (uiOutcome : Except Unit (List (String × String))) (store : Store)
    (hc : req.queryCode = some c) (hne : c ≠ "") :
    storeGet (callbackSessionId req freshId)
        (callback cfg req freshId (Except.ok tr) uiOutcome store).1 =
      some { idToken := tr.id_token, accessToken := tr.access_token,
             refreshToken := tr.refresh_token,
             userInfo := match uiOutcome with
                         | Except.ok ui => some ui
                         | Except.error _ => none,
             isAuthenticated := true } ∧
    (callback cfg req freshId (Except.ok tr) uiOutcome store).2 =
      [Event.tokenRequest (cfg.endpoint ++ "/protocol/openid-connect/token") c,
       Event.storePut (callbackSessionId req freshId)
         { idToken := tr.id_token, accessToken := tr.access_token,
           refreshToken := tr.refresh_token, userInfo := none, isAuthenticated := true },
       Event.userInfoRequest (cfg.endpoint ++ "/protocol/openid-connect/userinfo")
         ("Bearer " ++ jsShow tr.access_token),
       Event.setCookieHeader
         ("sessionId=" ++ callbackSessionId req freshId ++ "; HttpOnly; Path=/; Max-Age=86400"),
       Event.redirect "/?auth=success"] := by
  cases uiOutcome with
  | ok ui => exact ⟨by simp [callback, jsTruthy, jsShow, hc, hne, storeGet_storeSet_self], by
      simp [callback, jsTruthy, jsShow, hc, hne]⟩
  | error e => exact ⟨by simp [callback, jsTruthy, jsShow, hc, hne, storeGet_storeSet_self], by
      simp [callback, jsTruthy, jsShow, hc, hne]⟩

/-- Witness for C1: spec end-to-end scenario 1 — `GET /callback?code=abc`,
token endpoint answering AT/IT/RT, userinfo answering
`preferred_username = "joao"`, empty initial store, fresh id `"fresh1"`. -/
theorem callback_success_stores_session_witness :
    (Request.mk none none (some "abc")).queryCode = some "abc" ∧ "abc" ≠ "" ∧
    (storeGet (callbackSessionId (Request.mk none none (some "abc")) "fresh1")
        (callback keycloakConfigDefault (Request.mk none none (some "abc")) "fresh1"
          (Except.ok (TokenResponse.mk (some "IT") (some "AT") (some "RT")))
          (Except.ok [("preferred_username", "joao")]) []).1 =
      some { idToken := some "IT", accessToken := some "AT",
             refreshToken := some "RT",
             userInfo := some [("preferred_username", "joao")],
             isAuthenticated := true } ∧
    (callback keycloakConfigDefault (Request.mk none none (some "abc")) "fresh1"
          (Except.ok (TokenResponse.mk (some "IT") (some "AT") (some "RT")))
          (Except.ok [("preferred_username", "joao")]) []).2 =
      [Event.tokenRequest
         "https://auth-dev.curriculobe.com.br/realms/bestema-dev/protocol/openid-connect/token"
         "abc",
       Event.storePut "fresh1"
         { idToken := some "IT", accessToken := some "AT",
           refreshToken := some "RT", userInfo := none, isAuthenticated := true },
       Event.userInfoRequest
         "https://auth-dev.curriculobe.com.br/realms/bestema-dev/protocol/openid-connect/userinfo"
         "Bearer AT",
       Event.setCookieHeader "sessionId=fresh1; HttpOnly; Path=/; Max-Age=86400",
       Event.redirect "/?auth=success"]) :=
  ⟨rfl, by decide,
   callback_success_stores_session keycloakConfigDefault (Request.mk none none (some "abc"))
     "fresh1" "abc" (TokenResponse.mk (some "IT") (some "AT") (some "RT"))
     (Except.ok [("preferred_username", "joao")]) [] rfl (by decide)⟩

/-- C5: on a callback (Leg B) request whose token exchange succeeds but
whose userinfo fetch fails, the stored session still has
`isAuthenticated = true` with `userInfo` absent, and the response still
sets the session cookie and redirects to `/?auth=success`. -/
theorem callback_userinfo_failure_nonfatal (cfg : KeycloakConfig) (req : Request)
    (freshId c : String) (tr : TokenResponse) (store : Store)
    (hc : req.queryCode = some c) (hne : c ≠ "") :
    storeGet (callbackSessionId req freshId)
        (callback cfg req freshId (Except.ok tr) (Except.error ()) store).1 =
      some { idToken := tr.id_token, accessToken := tr.access_token,
             refreshToken := tr.refresh_token,
             userInfo := none, isAuthenticated := true } ∧
    (callback cfg req freshId (Except.ok tr) (Except.error ()) store).2 =
      [Event.tokenRequest (cfg.endpoint ++ "/protocol/openid-connect/token") c,
       Event.storePut (callbackSessionId req freshId)
         { idToken := tr.id_token, accessToken := tr.access_token,
           refreshToken := tr.refresh_token, userInfo := none, isAuthenticated := true },
       Event.userInfoRequest (cfg.endpoint ++ "/protocol/openid-connect/userinfo")
         ("Bearer " ++ jsShow tr.access_token),
       Event.setCookieHeader
         ("sessionId=" ++ callbackSessionId req freshId ++ "; HttpOnly; Path=/; Max-Age=86400"),
       Event.redirect "/?auth=success"] :=
  ⟨by simp [callback, jsTruthy, jsShow, hc, hne, storeGet_storeSet_self], by
    simp [callback, jsTruthy, jsShow, hc, hne]⟩

/-- Witness for C5: userinfo endpoint failing after a successful token
exchange, concrete request and tokens. -/
theorem callback_userinfo_failure_nonfatal_witness :
    (Request.mk none none (some "abc")).queryCode = some "abc" ∧ "abc" ≠ "" ∧
    (storeGet (callbackSessionId (Request.mk none none (some "abc")) "fresh1")
        (callback keycloakConfigDefault (Request.mk none none (some "abc")) "fresh1"
          (Except.ok (TokenResponse.mk (some "IT") (some "AT") (some "RT")))
          (Except.error ()) []).1 =
      some { idToken := some "IT", accessToken := some "AT",
             refreshToken := some "RT", userInfo := none,
             isAuthenticated := true } ∧
    (callback keycloakConfigDefault (Request.mk none none (some "abc")) "fresh1"
          (Except.ok (TokenResponse.mk (some "IT") (some "AT") (some "RT")))
          (Except.error ()) []).2 =
      [Event.tokenRequest
         "https://auth-dev.curriculobe.com.br/realms/bestema-dev/protocol/openid-connect/token"
         "abc",
       Event.storePut "fresh1"
         { idToken := some "IT", accessToken := some "AT",
           refreshToken := some "RT", userInfo := none, isAuthenticated := true },
       Event.userInfoRequest
         "https://auth-dev.curriculobe.com.br/realms/bestema-dev/protocol/openid-connect/userinfo"
         "Bearer AT",
       Event.setCookieHeader "sessionId=fresh1; HttpOnly; Path=/; Max-Age=86400",
       Event.redirect "/?auth=success"]) :=
  ⟨rfl, by decide,
   callback_userinfo_failure_nonfatal keycloakConfigDefault
     (Request.mk none none (some "abc")) "fresh1" "abc"
     (TokenResponse.mk (some "IT") (some "AT") (some "RT")) [] rfl (by decide)⟩

/-- C2: every operation of the flow (Legs A–D) preserves the session-store
invariant — every stored entry has `isAuthenticated = true` with id token
and access token present, so a session with `isAuthenticated = false` is
never stored — provided successful token responses honour the assumed
identity-provider contract (`id_token` and `access_token` present). -/
theorem store_invariant_preserved (cfg : KeycloakConfig) (op : Op) (store : Store)
    (hinv : StoreInv store) (hwf : OpTokenWF op) :
    StoreInv (applyOp cfg op store) := by
  cases op with
  | loginOp => exact hinv
  | statusOp req => exact hinv
  | logoutOp req =>
      unfold applyOp logout
      cases hget : storeGet (getSessionId req) store with
      | none => simpa [hget] using hinv
      | some sess =>
          by_cases hauth : sess.isAuthenticated = false
          · simpa [hget, hauth] using hinv
          · simpa [hget, hauth] using StoreInv_storeDelete (getSessionId req) store hinv
  | callbackOp req freshId tok ui =>
      unfold applyOp callback
      by_cases hcode : jsTruthy req.queryCode
      · cases tok with
        | error e => simpa [hcode] using hinv
        | ok tr =>
            obtain ⟨hid, hat⟩ := hwf
            have hv : SessionWF
                { idToken := tr.id_token, accessToken := tr.access_token,
                  refreshToken := tr.refresh_token, userInfo := none,
                  isAuthenticated := true } := ⟨rfl, hid, hat⟩
            cases ui with
            | ok claims =>
                simp only [hcode, not_true, if_neg, ite_false]
                simpa [hcode] using
                  StoreInv_storeSet _ _ _
                    (StoreInv_storeSet _ _ _ hinv hv) ⟨rfl, hid, hat⟩
            | error e =>
                simpa [hcode] using StoreInv_storeSet _ _ _ hinv hv
      · simpa [hcode] using hinv

/-- Witness for C2: a concrete well-formed callback operation applied to a
concrete store satisfying the invariant. -/
theorem store_invariant_preserved_witness :
    StoreInv [("S", UserSession.mk (some "I0") (some "A0") none none true)] ∧
    OpTokenWF (Op.callbackOp (Request.mk none none (some "abc")) "fresh1"
      (Except.ok (TokenResponse.mk (some "IT") (some "AT") (some "RT")))
      (Except.ok [("preferred_username", "joao")])) ∧
    StoreInv (applyOp keycloakConfigDefault
      (Op.callbackOp (Request.mk none none (some "abc")) "fresh1"
        (Except.ok (TokenResponse.mk (some "IT") (some "AT") (some "RT")))
        (Except.ok [("preferred_username", "joao")]))
      [("S", UserSession.mk (some "I0") (some "A0") none none true)]) :=
  ⟨by intro p hp; simp at hp; simp [hp, SessionWF],
   ⟨rfl, rfl⟩,
   store_invariant_preserved _ _ _
     (by intro p hp; simp at hp; simp [hp, SessionWF]) ⟨rfl, rfl⟩⟩

/-- C6 counterexample: a stored authenticated session whose `idToken` is
present but empty (`some ""`).  The handler's JS truthiness test skips the
`id_token_hint` parameter, so the redirect URL carries no `id_token_hint`
although the session's `idToken` field is present — refuting the claimed
"if and only if the session's idToken was present". -/
theorem logout_hint_counterexample :
    storeGet "S" [("S", UserSession.mk (some "") (some "AT") none none true)] =
      some (UserSession.mk (some "") (some "AT") none none true) ∧
    (UserSession.mk (some "") (some "AT") none none true).idToken.isSome = true ∧
    (logout keycloakConfigDefault (Request.mk (some "sessionId=S") none none)
        [("S", UserSession.mk (some "") (some "AT") none none true)]).2 =
      [Event.storeDel "S",
       Event.setCookieHeader "sessionId=; HttpOnly; Path=/; Max-Age=0",
       Event.redirect
         "https://auth-dev.curriculobe.com.br/realms/bestema-dev/protocol/openid-connect/logout?client_id=&post_logout_redirect_uri=http%3A%2F%2Flocalhost%3A3000%2Flogout-success"] ∧
    ¬ ("&id_token_hint=".toList <:+:
        ("https://auth-dev.curriculobe.com.br/realms/bestema-dev/protocol/openid-connect/logout?client_id=&post_logout_redirect_uri=http%3A%2F%2Flocalhost%3A3000%2Flogout-success" : String).toList) := by
  refine ⟨rfl, rfl, by decide, by decide⟩

/-- C6 as amended: on a logout (Leg D) request resolving to a stored
authenticated session, the entry is deleted (a subsequent `storeGet` of
that id is absent), the `sessionId` cookie is cleared (empty value,
max-age 0), and the 302 redirect targets the provider logout URL — with
the deletion event strictly before the redirect in the trace — and that
URL contains an `id_token_hint` parameter iff the session's `idToken` is
present *and nonempty* (JS truthiness, which drops the hint for an empty
id token).  The hypothesis `hbase` records that the configured base URL
does not itself contain the literal text `&id_token_hint=`. -/
theorem logout_authenticated_deletes (cfg : KeycloakConfig) (req : Request)
    (store : Store) (sess : UserSession)
    (hget : storeGet (getSessionId req) store = some sess)
    (hauth : sess.isAuthenticated = true)
    (hbase : ¬ ("&id_token_hint=".toList <:+: (logoutUrlBase cfg).toList)) :
    (logout cfg req store).1 = storeDelete (getSessionId req) store ∧
    storeGet (getSessionId req) (logout cfg req store).1 = none ∧
    (logout cfg req store).2 =
      [Event.storeDel (getSessionId req),
       Event.setCookieHeader "sessionId=; HttpOnly; Path=/; Max-Age=0",
       Event.redirect (logoutUrl cfg sess)] ∧
    (("&id_token_hint=".toList <:+: (logoutUrl cfg sess).toList)
      ↔ jsTruthy sess.idToken = true) := by
  have hlog : logout cfg req store =
      (storeDelete (getSessionId req) store,
       [Event.storeDel (getSessionId req),
        Event.setCookieHeader "sessionId=; HttpOnly; Path=/; Max-Age=0",
        Event.redirect (logoutUrl cfg sess)]) := by
    unfold logout
    simp [hget, hauth]
  refine ⟨by rw [hlog], by rw [hlog]; exact storeGet_storeDelete_self _ _,
          by rw [hlog], ?_⟩
  unfold logoutUrl
  cases hb : jsTruthy sess.idToken with
  | true =>
      constructor
      · intro _; rfl
      · intro _
        simpa using hintOccursInAppend (logoutUrlBase cfg) (jsShow sess.idToken)
  | false =>
      constructor
      · intro hin
        exact absurd (by simpa [toList_append, String.append_empty] using hin) hbase
      · intro h
        exact absurd h (by decide)

/-- Witness for the amended C6 at a concrete authenticated session with a
nonempty id token, against the default configuration. -/
theorem logout_authenticated_deletes_witness :
    storeGet (getSessionId logoutReqW) logoutStoreW = some logoutSessW ∧
    logoutSessW.isAuthenticated = true ∧
    ¬ ("&id_token_hint=".toList <:+: (logoutUrlBase keycloakConfigDefault).toList) ∧
    ((logout keycloakConfigDefault logoutReqW logoutStoreW).1 =
        storeDelete (getSessionId logoutReqW) logoutStoreW ∧
     storeGet (getSessionId logoutReqW)
        (logout keycloakConfigDefault logoutReqW logoutStoreW).1 = none ∧
     (logout keycloakConfigDefault logoutReqW logoutStoreW).2 =
       [Event.storeDel (getSessionId logoutReqW),
        Event.setCookieHeader "sessionId=; HttpOnly; Path=/; Max-Age=0",
        Event.redirect (logoutUrl keycloakConfigDefault logoutSessW)] ∧
     (("&id_token_hint=".toList <:+: (logoutUrl keycloakConfigDefault logoutSessW).toList)
       ↔ jsTruthy logoutSessW.idToken = true)) :=
  ⟨by decide, rfl, by decide,
   logout_authenticated_deletes keycloakConfigDefault logoutReqW logoutStoreW logoutSessW
     (by decide) rfl (by decide)⟩

/-- C9 counterexample: a logout request with no active session (empty
store, no cookie) answers with the bare redirect to `/logout-success` and
does *not* clear the `sessionId` cookie — refuting "for every logout
request, the response clears the sessionId cookie". -/
theorem logout_cookie_counterexample :
    (logout keycloakConfigDefault (Request.mk none none none) []).2 =
      [Event.redirect "/logout-success"] ∧
    Event.setCookieHeader "sessionId=; HttpOnly; Path=/; Max-Age=0" ∉
      (logout keycloakConfigDefault (Request.mk none none none) []).2 :=
  ⟨rfl, by decide⟩

/-- C9 as amended: a logout (Leg D) response clears the `sessionId` cookie
(same name, empty value, max-age 0) exactly when the resolved session id
maps to a stored session with `isAuthenticated = true`; on the
absent/unauthenticated path no cookie header is set at all. -/
theorem logout_clears_cookie_iff (cfg : KeycloakConfig) (req : Request) (store : Store) :
    (Event.setCookieHeader "sessionId=; HttpOnly; Path=/; Max-Age=0"
        ∈ (logout cfg req store).2)
      ↔ ((storeGet (getSessionId req) store).map (fun s => s.isAuthenticated)).getD false
          = true := by
  unfold logout
  cases hget : storeGet (getSessionId req) store with
  | none => simp [hget]
  | some sess =>
      cases hb : sess.isAuthenticated with
      | false => simp [hget, hb]
      | true => simp [hget, hb]

/-! ## Lemmas about the JS split primitive, for session-id resolution -/

theorem splitOnChar_ne_nil (sep : Char) (l : List Char) : splitOnChar sep l ≠ [] := by
  cases l with
  | nil => simp [splitOnChar]
  | cons c cs =>
      unfold splitOnChar
      by_cases h : c = sep
      · simp [h]
      · simp only [h, if_false]
        cases splitOnChar sep cs <;> simp

theorem headD_splitOnChar (sep : Char) (l : List Char) :
    (splitOnChar sep l).headD [] = l.takeWhile (fun c => c ≠ sep) := by
  induction l with
  | nil => rfl
  | cons c cs ih =>
      unfold splitOnChar
      by_cases h : c = sep
      · simp [h]
      · cases hs : splitOnChar sep cs with
        | nil => exact absurd hs (splitOnChar_ne_nil sep cs)
        | cons hh tt =>
            rw [hs] at ih
            simp only [List.headD_cons] at ih
            simp [h, hs, ih]

theorem splitOnChar_append (sep : Char) (a b : List Char) (ha : sep ∉ a) :
    splitOnChar sep (a ++ sep :: b) = a :: splitOnChar sep b := by
  induction a with
  | nil => simp [splitOnChar]
  | cons c cs ih =>
      have hc : c ≠ sep := by
        rintro rfl
        exact ha (List.mem_cons_self _ _)
      have ha' : sep ∉ cs := fun h => ha (List.mem_cons_of_mem _ h)
      have hcons : splitOnChar sep (c :: (cs ++ sep :: b)) =
          if c = sep then [] :: splitOnChar sep (cs ++ sep :: b)
          else match splitOnChar sep (cs ++ sep :: b) with
               | [] => [[c]]
               | h :: t => (c :: h) :: t := rfl
      simp only [List.cons_append]
      rw [hcons, ih ha']
      simp [hc]

theorem jsStartsWithCl_decomp (p : List Char) :
    ∀ l, jsStartsWithCl p l = true → l = p ++ l.drop p.length := by
  induction p with
  | nil => intro l _; simp
  | cons c cs ih =>
      intro l h
      cases l with
      | nil => simp [jsStartsWithCl] at h
      | cons d ds =>
          simp only [jsStartsWithCl, Bool.and_eq_true, decide_eq_true_eq] at h
          obtain ⟨h1, h2⟩ := h
          have := ih ds h2
          simp only [List.cons_append, List.length_cons, List.drop_succ_cons]
          rw [h1, ← this]

theorem toList_of_startsWith (pre s : String) (h : jsStartsWith pre s = true) :
    s.toList = pre.toList ++ s.toList.drop pre.toList.length := by
  unfold jsStartsWith at h
  exact jsStartsWithCl_decomp pre.toList s.toList h

theorem getSessionId_eq_of_cookie (req : Request) (ch : String)
    (hch : req.cookieHeader = some ch) :
    getSessionId req =
      if ch = "" then jsOrElse req.authorizationHeader "default"
      else
        match ((jsSplit ';' ch).map jsTrim).find? (fun c => jsStartsWith "sessionId=" c) with
        | some sessionCookie => (jsSplit '=' sessionCookie).getD 1 ""
        | none => jsOrElse req.authorizationHeader "default" := by
  unfold getSessionId
  rw [hch]

theorem getSessionId_eq_of_no_cookie (req : Request)
    (hch : req.cookieHeader = none) :
    getSessionId req = jsOrElse req.authorizationHeader "default" := by
  unfold getSessionId
  rw [hch]

/-- C7 counterexample: resolution is not "the cookie value verbatim" —
for the cookie `sessionId=a=b` (value `a=b`) the source's `split('=')[1]`
yields `"a"`; and an `Authorization` header that is present but empty is
not returned verbatim either, because `headers.authorization || 'default'`
treats the empty string as falsy. -/
theorem getSessionId_counterexample :
    getSessionId (Request.mk (some "sessionId=a=b") none none) = "a" ∧
    ("a" : String) ≠ "a=b" ∧
    getSessionId (Request.mk none (some "") none) = "default" ∧
    ("default" : String) ≠ "" := by
  refine ⟨by decide, by decide, by decide, by decide⟩

/-- C7 as amended: session-id resolution is a total function with this
precedence — when the `Cookie` header is nonempty and, after splitting on
`;` and trimming, some part starts with `sessionId=`, the result is that
cookie's value truncated at its first `=` (hence verbatim whenever the
value contains no `=`); otherwise a nonempty `Authorization` header value
is returned verbatim; otherwise the literal `"default"` (an empty
`Authorization` header counts as absent). -/
theorem getSessionId_resolution (req : Request) :
    (∀ ch part, req.cookieHeader = some ch → ch ≠ "" →
        ((jsSplit ';' ch).map jsTrim).find? (fun c => jsStartsWith "sessionId=" c)
          = some part →
        getSessionId req =
          String.mk ((part.toList.drop "sessionId=".length).takeWhile (fun c => c ≠ '='))) ∧
    ((match req.cookieHeader with
      | none => True
      | some ch => ch = "" ∨
          ((jsSplit ';' ch).map jsTrim).find? (fun c => jsStartsWith "sessionId=" c)
            = none) →
      getSessionId req = jsOrElse req.authorizationHeader "default") := by
  constructor
  · intro ch part hch hne hfind
    have hstart : jsStartsWith "sessionId=" part = true := List.find?_some hfind
    have hdecomp : part.toList =
        "sessionId".toList ++ '=' :: part.toList.drop "sessionId=".length :=
      toList_of_startsWith "sessionId=" part hstart
    have hsplit : splitOnChar '=' part.toList =
        "sessionId".toList :: splitOnChar '=' (part.toList.drop "sessionId=".length) := by
      conv_lhs => rw [hdecomp]
      exact splitOnChar_append '=' _ _ (by decide)
    rw [getSessionId_eq_of_cookie req ch hch, if_neg hne, hfind]
    show ((splitOnChar '=' part.toList).map String.mk).getD 1 "" = _
    rw [hsplit]
    cases hs : splitOnChar '=' (part.toList.drop "sessionId=".length) with
    | nil => exact absurd hs (splitOnChar_ne_nil _ _)
    | cons hh tt =>
        have hhh : hh = (part.toList.drop "sessionId=".length).takeWhile (fun c => c ≠ '=') := by
          have hhead := headD_splitOnChar '=' (part.toList.drop "sessionId=".length)
          rw [hs] at hhead
          simpa using hhead
        simp [hhh]
  · intro h
    cases hch : req.cookieHeader with
    | none => exact getSessionId_eq_of_no_cookie req hch
    | some ch =>
        rw [hch] at h
        rcases h with h | h
        · rw [getSessionId_eq_of_cookie req ch hch, if_pos h]
        · by_cases hch0 : ch = ""
          · rw [getSessionId_eq_of_cookie req ch hch, if_pos hch0]
          · rw [getSessionId_eq_of_cookie req ch hch, if_neg hch0, h]

/-- Witness for the amended C7: a request whose cookie value contains `=`
(first conjunct) and a request with no cookie but a nonempty
`Authorization` header (second conjunct). -/
theorem getSessionId_resolution_witness :
    ((Request.mk (some "sessionId=a=b") none none).cookieHeader = some "sessionId=a=b" ∧
     ("sessionId=a=b" : String) ≠ "" ∧
     ((jsSplit ';' "sessionId=a=b").map jsTrim).find?
        (fun c => jsStartsWith "sessionId=" c) = some "sessionId=a=b" ∧
     getSessionId (Request.mk (some "sessionId=a=b") none none) =
       String.mk ((("sessionId=a=b" : String).toList.drop "sessionId=".length).takeWhile
         (fun c => c ≠ '='))) ∧
    getSessionId (Request.mk none (some "Bearer tok") none) =
      jsOrElse (some "Bearer tok") "default" :=
  ⟨⟨rfl, by decide, by decide,
    (getSessionId_resolution (Request.mk (some "sessionId=a=b") none none)).1
      "sessionId=a=b" "sessionId=a=b" rfl (by decide) (by decide)⟩,
   (getSessionId_resolution (Request.mk none (some "Bearer tok") none)).2 trivial⟩

end Oidc
